import Mathlib

set_option maxHeartbeats 1000000
set_option maxRecDepth 4000

/-! Shallow embedding of `extrator_nfe.py`: an NF-e invoice XML extractor
(`extrair_dados_nfe`, source lines 6-97) and a spreadsheet exporter
(`to_excel`, source lines 99-105).

XML documents are modelled as trees of elements (tag in Clark notation,
optional text, ordered children), matching what `xml.etree.ElementTree`
produces.  The byte-level XML parser (`ET.fromstring`) is external library
code; its outcome is modelled as `Except String Elem` (an error for input
bytes that do not parse, carrying the parser message).  Python exceptions
raised inside the `try` block (AttributeError on a missing node,
TypeError/ValueError from `float`) are modelled with the `Except String`
monad; the single `except` handler at lines 95-97 corresponds to the
`ExtractionError.malformed` constructor, and the explicit check at lines
25-27 to `ExtractionError.unrecognizedStructure`. -/

/-- XML element: tag (namespace-qualified, Clark notation), optional text
content, and the list of direct children in document order. -/
inductive Elem : Type where
  | node (tag : String) (text : Option String) (children : List Elem)

def Elem.tag : Elem → String
  | .node t _ _ => t

def Elem.text : Elem → Option String
  | .node _ x _ => x

def Elem.children : Elem → List Elem
  | .node _ _ c => c

/-- The fixed NF-e namespace URI (source line 20). -/
def nfeNS : String := "http://www.portalfiscal.inf.br/nfe"

/-- Clark-notation qualified tag, as ElementTree resolves the `nfe:` prefix
against the namespace map. -/
def qn (s : String) : String := "\x7b" ++ nfeNS ++ "\x7d" ++ s

/-- ElementTree `find` with a single tag: first direct child with that tag
(the element itself is never considered). -/
def Elem.find (e : Elem) (t : String) : Option Elem :=
  e.children.find? (fun c => c.tag == t)

/-- ElementTree `findall` with a single tag: all direct children with that
tag, in document order. -/
def Elem.findall (e : Elem) (t : String) : List Elem :=
  e.children.filter (fun c => c.tag == t)

/-- ElementTree `find` on a two-step path `t1/t2`: the first `t2` child of
the first `t1` child that has one, in document order. -/
def Elem.find2 (e : Elem) (t1 t2 : String) : Option Elem :=
  (e.findall t1).findSome? (fun c => c.find t2)

/-- Rendering of an optional string inside a Python f-string: `None` prints
as the literal `"None"`. -/
def pyStr : Option String → String
  | none => "None"
  | some s => s

def natOfDigits (l : List Char) : Nat :=
  l.foldl (fun a c => a * 10 + (c.toNat - 48)) 0

def ratOfParts (neg : Bool) (ip fp : List Char) : Rat :=
  let v : Rat := (natOfDigits ip : Rat) + (natOfDigits fp : Rat) / ((10 : Rat) ^ fp.length)
  if neg then -v else v

/-- Model of Python `float()` applied to a string: an optional sign followed
by a decimal literal (digits with an optional fractional part).  Returns
`none` exactly when the text is not numeric (Python raises ValueError). -/
def pyFloatAux (neg : Bool) (l : List Char) : Option Rat :=
  let ip := l.takeWhile Char.isDigit
  let r1 := l.dropWhile Char.isDigit
  match r1 with
  | [] => if ip.isEmpty then none else some (ratOfParts neg ip [])
  | '.' :: fp =>
      if (ip.isEmpty && fp.isEmpty) || !fp.all Char.isDigit then none
      else some (ratOfParts neg ip fp)
  | _ => none

def pyFloat? (s : String) : Option Rat :=
  match s.toList with
  | '-' :: rest => pyFloatAux true rest
  | '+' :: rest => pyFloatAux false rest
  | l => pyFloatAux false l

/-- Python `float(x)` where `x` is an `Element.text` value: `None` raises
TypeError, a non-numeric string raises ValueError; both are caught by the
handler at source lines 95-97. -/
def pyFloat (x : Option String) : Except String Rat :=
  match x with
  | none => .error "float argument must be a string or a real number, not NoneType"
  | some s =>
      match pyFloat? s with
      | some v => .ok v
      | none => .error ("could not convert string to float: " ++ s)

/-- Python `x.find(tag)` where `x` may be `None` (AttributeError, caught by
the handler). -/
def findAttr (x : Option Elem) (t : String) : Except String (Option Elem) :=
  match x with
  | none => .error "NoneType object has no attribute find"
  | some e => .ok (e.find t)

/-- Python `x.find(path)` on a two-step path, where `x` may be `None`. -/
def find2Attr (x : Option Elem) (t1 t2 : String) : Except String (Option Elem) :=
  match x with
  | none => .error "NoneType object has no attribute find"
  | some e => .ok (e.find2 t1 t2)

/-- Python `x.findall(tag)` where `x` may be `None`. -/
def findallAttr (x : Option Elem) (t : String) : Except String (List Elem) :=
  match x with
  | none => .error "NoneType object has no attribute findall"
  | some e => .ok (e.findall t)

/-- Python `x.text` where `x` may be `None`. -/
def textAttr (x : Option Elem) : Except String (Option String) :=
  match x with
  | none => .error "NoneType object has no attribute text"
  | some e => .ok e.text

/-- One output record: the dict built at source lines 75-90, with its 14
fields.  Python string values that may be `None` are `Option String`; the
five `float()`-parsed values are rationals. -/
structure Record where
  nNF : Option String
  dhEmi : Option String
  nome : Option String
  documento : Option String
  endereco : String
  telefone : Option String
  email : Option String
  cProd : Option String
  xProd : Option String
  qCom : Rat
  vUnCom : Rat
  vProdTot : Rat
  vFreteTot : Rat
  vNFTot : Rat
deriving DecidableEq

/-- The invoice-level and buyer-level locals of `extrair_dados_nfe`
(source lines 29-67), computed once before the item loop.  The three totals
are kept as raw texts: `float()` is applied per item at lines 85-89. -/
structure SharedCtx where
  nNF : Option String
  dhEmi : Option String
  nome : Option String
  documento : Option String
  endereco : String
  telefone : Option String
  email : Option String
  vNFt : Option String
  vProdt : Option String
  vFretet : Option String
deriving DecidableEq

/-- Error taxonomy of the extractor: the explicit root check at lines 25-27
(`unrecognizedStructure`) and the catch-all handler at lines 95-97
(`malformed`, carrying the underlying exception message). -/
inductive ExtractionError : Type where
  | unrecognizedStructure
  | malformed (msg : String)
deriving DecidableEq

/-- Transcription of source lines 29-67: the shared invoice/buyer locals.
Each `←` step is a lookup or attribute access that can raise (model of the
Python exceptions inside the `try` block). -/
def sharedCtxOf (nfeNode : Elem) : Except String SharedCtx := do
  let infNFe := nfeNode.find (qn "infNFe")
  let dest ← findAttr infNFe (qn "dest")
  let enderDest ← findAttr dest (qn "enderDest")
  let nomeConsumidor ← textAttr (← findAttr dest (qn "xNome"))
  let cpfNode ← findAttr dest (qn "CPF")
  let cnpjNode ← findAttr dest (qn "CNPJ")
  let documentoConsumidor : Option String :=
    match cpfNode with
    | some c => c.text
    | none =>
      match cnpjNode with
      | some c => c.text
      | none => some "Não informado"
  let logradouro ← textAttr (← findAttr enderDest (qn "xLgr"))
  let numero ← textAttr (← findAttr enderDest (qn "nro"))
  let bairro ← textAttr (← findAttr enderDest (qn "xBairro"))
  let cidade ← textAttr (← findAttr enderDest (qn "xMun"))
  let uf ← textAttr (← findAttr enderDest (qn "UF"))
  let cep ← textAttr (← findAttr enderDest (qn "CEP"))
  let enderecoCompleto : String :=
    pyStr logradouro ++ ", " ++ pyStr numero ++ " - " ++ pyStr bairro ++ ", " ++
      pyStr cidade ++ "/" ++ pyStr uf ++ " - CEP: " ++ pyStr cep
  let emailNode ← findAttr dest (qn "email")
  let emailConsumidor : Option String :=
    match emailNode with
    | some e => e.text
    | none => some "Não informado"
  let foneNode ← findAttr enderDest (qn "fone")
  let telefoneConsumidor : Option String :=
    match foneNode with
    | some f => f.text
    | none => some "Não informado"
  let ide ← findAttr infNFe (qn "ide")
  let nNF ← textAttr (← findAttr ide (qn "nNF"))
  let dhEmi ← textAttr (← findAttr ide (qn "dhEmi"))
  let total ← find2Attr infNFe (qn "total") (qn "ICMSTot")
  let vNF ← textAttr (← findAttr total (qn "vNF"))
  let vProd ← textAttr (← findAttr total (qn "vProd"))
  let vFrete ← textAttr (← findAttr total (qn "vFrete"))
  pure ({ nNF := nNF, dhEmi := dhEmi, nome := nomeConsumidor,
          documento := documentoConsumidor, endereco := enderecoCompleto,
          telefone := telefoneConsumidor, email := emailConsumidor,
          vNFt := vNF, vProdt := vProd, vFretet := vFrete } : SharedCtx)

/-- Transcription of the loop body at source lines 73-91: one record per
`det` item, evaluating the dict values in order (item fields first, then
the three totals through `float`). -/
def buildItem (s : SharedCtx) (item : Elem) : Except String Record := do
  let prod := item.find (qn "prod")
  let cProd ← textAttr (← findAttr prod (qn "cProd"))
  let xProd ← textAttr (← findAttr prod (qn "xProd"))
  let qCom ← pyFloat (← textAttr (← findAttr prod (qn "qCom")))
  let vUnCom ← pyFloat (← textAttr (← findAttr prod (qn "vUnCom")))
  let vProdTot ← pyFloat s.vProdt
  let vFreteTot ← pyFloat s.vFretet
  let vNFTot ← pyFloat s.vNFt
  pure ({ nNF := s.nNF, dhEmi := s.dhEmi, nome := s.nome, documento := s.documento,
          endereco := s.endereco, telefone := s.telefone, email := s.email,
          cProd := cProd, xProd := xProd, qCom := qCom, vUnCom := vUnCom,
          vProdTot := vProdTot, vFreteTot := vFreteTot, vNFTot := vNFTot } : Record)

/-- The `for item in itens` loop at source lines 73-91, appending one record
per item and stopping at the first exception. -/
def buildItens (s : SharedCtx) : List Elem → Except String (List Record)
  | [] => .ok []
  | item :: rest => do
      let r0 ← buildItem s item
      let rs ← buildItens s rest
      pure (r0 :: rs)

/-- Source line 71: `itens = infNFe.findall('nfe:det', ns)`. -/
def itensOf (nfeNode : Elem) : Except String (List Elem) :=
  findallAttr (nfeNode.find (qn "infNFe")) (qn "det")

/-- Body of the `try` block after the invoice root has been located
(source lines 29-93). -/
def extrairBody (nfeNode : Elem) : Except String (List Record) := do
  let s ← sharedCtxOf nfeNode
  let itens ← itensOf nfeNode
  buildItens s itens

/-- Transcription of `extrair_dados_nfe` (source lines 6-97) over the parse
outcome of the input bytes: a parse failure is caught by the handler
(`malformed`); a missing `NFe` child of the document root takes the explicit
early-return at lines 25-27 (`unrecognizedStructure`); every other internal
exception surfaces as `malformed` with its message. -/
def extrair_dados_nfe (parsed : Except String Elem) : Except ExtractionError (List Record) :=
  match parsed with
  | .error msg => .error (.malformed msg)
  | .ok root =>
      match root.find (qn "NFe") with
      | none => .error .unrecognizedStructure
      | some nfeNode => (extrairBody nfeNode).mapError ExtractionError.malformed

/-- The message shown by `st.error` for each failure outcome (source lines
26 and 96). -/
def errorMessage : ExtractionError → String
  | .unrecognizedStructure =>
      "Estrutura do XML não reconhecida. Não foi possível encontrar a tag <NFe>."
  | .malformed e => "Ocorreu um erro ao processar o arquivo XML: " ++ e

/-- The caller-visible behaviour of `extrair_dados_nfe`: the returned value
(`None` on failure) together with the list of error messages reported via
`st.error` during the call. -/
def extrairApp (parsed : Except String Elem) : Option (List Record) × List String :=
  match extrair_dados_nfe parsed with
  | .ok recs => (some recs, [])
  | .error e => (none, [errorMessage e])

/-- A spreadsheet cell: a string, a number, or an empty cell (pandas writes
`None`/NaN as an empty cell). -/
inductive Cell : Type where
  | str (s : String)
  | num (v : Rat)
  | null
deriving DecidableEq

def cellOfOpt : Option String → Cell
  | none => .null
  | some s => .str s

/-- The dict built for one item at source lines 75-90, as an ordered
association list: key insertion order is the order of the dict literal. -/
def rowPairs (r : Record) : List (String × Cell) :=
  [("NF Nº", cellOfOpt r.nNF),
   ("Data Emissão", cellOfOpt r.dhEmi),
   ("Nome do Consumidor", cellOfOpt r.nome),
   ("Documento (CPF/CNPJ)", cellOfOpt r.documento),
   ("Endereço", .str r.endereco),
   ("Telefone", cellOfOpt r.telefone),
   ("Email", cellOfOpt r.email),
   ("Código Produto", cellOfOpt r.cProd),
   ("Produto Comprado", cellOfOpt r.xProd),
   ("Quantidade", .num r.qCom),
   ("Valor Unitário", .num r.vUnCom),
   ("Valor Total Produtos", .num r.vProdTot),
   ("Valor Frete", .num r.vFreteTot),
   ("Valor Total da Nota", .num r.vNFTot)]

def insertKey (acc : List String) (k : String) : List String :=
  if acc.contains k then acc else acc ++ [k]

/-- Column index of `pd.DataFrame(list_of_dicts)` (source line 93): the
union of the dict keys in order of first appearance.  An empty list of
dicts yields a DataFrame with no columns. -/
def dfColumns (recs : List Record) : List String :=
  (recs.map (fun r => (rowPairs r).map Prod.fst)).foldl
    (fun acc ks => ks.foldl insertKey acc) []

/-- One worksheet as written by `df.to_excel(writer, index=False,
sheet_name='Dados NFe')`: sheet name, header row (the column labels; empty
when the DataFrame has no columns), and one row of cells per DataFrame row.
`index=False` means a data row holds exactly the column cells, nothing
prepended. -/
structure Worksheet where
  sheetName : String
  header : List String
  data : List (List Cell)
deriving DecidableEq

def lookupCell (pairs : List (String × Cell)) (k : String) : Cell :=
  match pairs.find? (fun p => p.fst == k) with
  | some p => p.snd
  | none => .null

/-- Transcription of `to_excel` (source lines 99-105) composed with the
DataFrame construction at line 93: serialize the records as the single
worksheet "Dados NFe". -/
def to_excel (recs : List Record) : Worksheet :=
  let cols := dfColumns recs
  { sheetName := "Dados NFe", header := cols,
    data := recs.map (fun r => cols.map (lookupCell (rowPairs r))) }

/-- The 14 output field display names, in the fixed order of the dict
literal at source lines 75-90. -/
def labels14 : List String :=
  ["NF Nº", "Data Emissão", "Nome do Consumidor", "Documento (CPF/CNPJ)",
   "Endereço", "Telefone", "Email", "Código Produto", "Produto Comprado",
   "Quantidade", "Valor Unitário", "Valor Total Produtos", "Valor Frete",
   "Valor Total da Nota"]

/-! Spec-side characterizations of individual field rules (restating the
corresponding single source lines, to be compared with what the full
extraction computes). -/

/-- The buyer-document rule of source line 40: CPF text if the CPF element
is present, else CNPJ text if present, else the literal sentinel. -/
def documentoSem (d : Elem) : Option String :=
  match d.find (qn "CPF") with
  | some c => c.text
  | none =>
    match d.find (qn "CNPJ") with
    | some c => c.text
    | none => some "Não informado"

/-- The email rule of source lines 52-53, read from the `dest` sub-tree. -/
def emailSem (d : Elem) : Option String :=
  match d.find (qn "email") with
  | some e => e.text
  | none => some "Não informado"

/-- The phone rule of source lines 56-57, read from the `enderDest`
(address) sub-tree. -/
def foneSem (ed : Elem) : Option String :=
  match ed.find (qn "fone") with
  | some f => f.text
  | none => some "Não informado"

/-- The four line-item fields of a record. -/
def lineProj (r : Record) : Option String × Option String × Rat × Rat :=
  (r.cProd, r.xProd, r.qCom, r.vUnCom)

/-- The ten invoice-level and buyer-level fields of a record (everything
except the four line-item fields). -/
def sharedProj (r : Record) :
    Option String × Option String × Option String × Option String × String ×
      Option String × Option String × Rat × Rat × Rat :=
  (r.nNF, r.dhEmi, r.nome, r.documento, r.endereco, r.telefone, r.email,
   r.vProdTot, r.vFreteTot, r.vNFTot)

/-- Extraction of the four line-item fields from one `det` element, exactly
as the loop body reads them (source lines 74 and 83-86). -/
def lineOf (d : Elem) : Except String (Option String × Option String × Rat × Rat) := do
  let prod := d.find (qn "prod")
  let cProd ← textAttr (← findAttr prod (qn "cProd"))
  let xProd ← textAttr (← findAttr prod (qn "xProd"))
  let qCom ← pyFloat (← textAttr (← findAttr prod (qn "qCom")))
  let vUnCom ← pyFloat (← textAttr (← findAttr prod (qn "vUnCom")))
  pure (cProd, xProd, qCom, vUnCom)

/-- First element of a list whose text does not parse as a float. -/
def firstNonFloat (l : List String) : Option String :=
  l.find? (fun s => (pyFloat? s).isNone)

/-! Generic lemmas about the `Except` monad and the item loop. -/

theorem except_ok_bind {ε α β : Type} (a : α) (f : α → Except ε β) :
    (Except.ok a >>= f) = f a := rfl

theorem except_error_bind {ε α β : Type} (e : ε) (f : α → Except ε β) :
    ((Except.error e : Except ε α) >>= f) = Except.error e := rfl

theorem except_pure_eq {ε α : Type} (a : α) : (pure a : Except ε α) = Except.ok a := rfl

theorem except_bind_ok {ε α β : Type} {x : Except ε α} {f : α → Except ε β} {b : β}
    (h : x >>= f = Except.ok b) : ∃ a, x = Except.ok a ∧ f a = Except.ok b := by
  cases x with
  | error e => exact absurd h (by simp [Bind.bind, Except.bind])
  | ok a => exact ⟨a, rfl, by simpa [Bind.bind, Except.bind] using h⟩

theorem mapError_ok {ε ε2 α : Type} {g : ε → ε2} {x : Except ε α} {a : α}
    (h : x.mapError g = Except.ok a) : x = Except.ok a := by
  cases x with
  | error e => simp [Except.mapError] at h
  | ok b => simpa [Except.mapError] using h

theorem buildItens_length {s : SharedCtx} {l : List Elem} {recs : List Record}
    (h : buildItens s l = Except.ok recs) : recs.length = l.length := by
  induction l generalizing recs with
  | nil =>
      simp only [buildItens] at h
      cases h
      rfl
  | cons a t ih =>
      simp only [buildItens] at h
      obtain ⟨r0, h0, h⟩ := except_bind_ok h
      obtain ⟨rs, h1, h⟩ := except_bind_ok h
      rw [except_pure_eq] at h
      cases h
      simp [ih h1]

theorem buildItens_get {s : SharedCtx} {l : List Elem} {recs : List Record}
    (h : buildItens s l = Except.ok recs) :
    ∀ j (hj : j < l.length) (hj2 : j < recs.length),
      buildItem s (l.get ⟨j, hj⟩) = Except.ok (recs.get ⟨j, hj2⟩) := by
  induction l generalizing recs with
  | nil => intro j hj hj2; exact absurd hj (by simp)
  | cons a t ih =>
      simp only [buildItens] at h
      obtain ⟨r0, h0, h⟩ := except_bind_ok h
      obtain ⟨rs, h1, h⟩ := except_bind_ok h
      rw [except_pure_eq] at h
      cases h
      intro j hj hj2
      cases j with
      | zero => simpa using h0
      | succ k => exact ih h1 k (by simpa using hj) (by simpa using hj2)

theorem buildItens_mem {s : SharedCtx} {l : List Elem} {recs : List Record}
    (h : buildItens s l = Except.ok recs) :
    ∀ r ∈ recs, ∃ d ∈ l, buildItem s d = Except.ok r := by
  induction l generalizing recs with
  | nil =>
      simp only [buildItens] at h
      cases h
      intro r hr
      exact absurd hr (by simp)
  | cons a t ih =>
      simp only [buildItens] at h
      obtain ⟨r0, h0, h⟩ := except_bind_ok h
      obtain ⟨rs, h1, h⟩ := except_bind_ok h
      rw [except_pure_eq] at h
      cases h
      intro r hr
      rcases List.mem_cons.mp hr with hr0 | hrs
      · exact ⟨a, by simp, hr0 ▸ h0⟩
      · obtain ⟨d, hd, hbd⟩ := ih h1 r hrs
        exact ⟨d, by simp [hd], hbd⟩

theorem buildItem_ok {s : SharedCtx} {item : Elem} {r : Record}
    (h : buildItem s item = Except.ok r) :
    lineOf item = Except.ok (lineProj r) ∧
    ∃ pv fv nv, pyFloat s.vProdt = Except.ok pv ∧ pyFloat s.vFretet = Except.ok fv ∧
      pyFloat s.vNFt = Except.ok nv ∧
      sharedProj r = (s.nNF, s.dhEmi, s.nome, s.documento, s.endereco,
        s.telefone, s.email, pv, fv, nv) := by
  simp only [buildItem] at h
  obtain ⟨o1, e1, h⟩ := except_bind_ok h
  obtain ⟨c, e2, h⟩ := except_bind_ok h
  obtain ⟨o2, e3, h⟩ := except_bind_ok h
  obtain ⟨x, e4, h⟩ := except_bind_ok h
  obtain ⟨o3, e5, h⟩ := except_bind_ok h
  obtain ⟨t3, e6, h⟩ := except_bind_ok h
  obtain ⟨qv, e7, h⟩ := except_bind_ok h
  obtain ⟨o4, e8, h⟩ := except_bind_ok h
  obtain ⟨t4, e9, h⟩ := except_bind_ok h
  obtain ⟨uv, e10, h⟩ := except_bind_ok h
  obtain ⟨pv, e11, h⟩ := except_bind_ok h
  obtain ⟨fv, e12, h⟩ := except_bind_ok h
  obtain ⟨nv, e13, h⟩ := except_bind_ok h
  rw [except_pure_eq] at h
  cases h
  constructor
  · simp only [lineOf, lineProj, e1, e2, e3, e4, e5, e6, e7, e8, e9, e10,
      except_ok_bind, except_pure_eq]
  · exact ⟨pv, fv, nv, e11, e12, e13, rfl⟩

theorem sharedCtxOf_ok {n : Elem} {s : SharedCtx}
    (h : sharedCtxOf n = Except.ok s) :
    ∃ infN destE endE,
      n.find (qn "infNFe") = some infN ∧
      infN.find (qn "dest") = some destE ∧
      destE.find (qn "enderDest") = some endE ∧
      (∃ nmE, destE.find (qn "xNome") = some nmE ∧ s.nome = nmE.text) ∧
      s.documento = documentoSem destE ∧
      s.email = emailSem destE ∧
      s.telefone = foneSem endE := by
  simp only [sharedCtxOf] at h
  obtain ⟨dest, e1, h⟩ := except_bind_ok h
  rcases hI : n.find (qn "infNFe") with _ | infN
  · rw [hI] at e1; exact absurd e1 (by simp [findAttr])
  rw [hI] at e1
  simp only [findAttr, Except.ok.injEq] at e1
  subst e1
  obtain ⟨enderDest, e2, h⟩ := except_bind_ok h
  rcases hD : infN.find (qn "dest") with _ | destE
  · rw [hD] at e2; exact absurd e2 (by simp [findAttr])
  rw [hD] at e2 h
  simp only [findAttr, Except.ok.injEq] at e2
  subst e2
  obtain ⟨xnm, e3, h⟩ := except_bind_ok h
  obtain ⟨nome, e4, h⟩ := except_bind_ok h
  simp only [findAttr, Except.ok.injEq] at e3
  subst e3
  rcases hNm : destE.find (qn "xNome") with _ | nmE
  · rw [hNm] at e4; exact absurd e4 (by simp [textAttr])
  rw [hNm] at e4
  simp only [textAttr, Except.ok.injEq] at e4
  subst e4
  obtain ⟨cpfNode, e5, h⟩ := except_bind_ok h
  simp only [findAttr, Except.ok.injEq] at e5
  subst e5
  obtain ⟨cnpjNode, e6, h⟩ := except_bind_ok h
  simp only [findAttr, Except.ok.injEq] at e6
  subst e6
  obtain ⟨x7, e7, h⟩ := except_bind_ok h
  rcases hE : destE.find (qn "enderDest") with _ | endE
  · rw [hE] at e7; exact absurd e7 (by simp [findAttr])
  rw [hE] at e7 h
  simp only [findAttr, Except.ok.injEq] at e7
  subst e7
  obtain ⟨logradouro, e8, h⟩ := except_bind_ok h
  obtain ⟨x9, e9, h⟩ := except_bind_ok h
  obtain ⟨numero, e10, h⟩ := except_bind_ok h
  obtain ⟨x11, e11, h⟩ := except_bind_ok h
  obtain ⟨bairro, e12, h⟩ := except_bind_ok h
  obtain ⟨x13, e13, h⟩ := except_bind_ok h
  obtain ⟨cidade, e14, h⟩ := except_bind_ok h
  obtain ⟨x15, e15, h⟩ := except_bind_ok h
  obtain ⟨uf, e16, h⟩ := except_bind_ok h
  obtain ⟨x17, e17, h⟩ := except_bind_ok h
  obtain ⟨cep, e18, h⟩ := except_bind_ok h
  obtain ⟨emailNode, e19, h⟩ := except_bind_ok h
  simp only [findAttr, Except.ok.injEq] at e19
  subst e19
  obtain ⟨foneNode, e20, h⟩ := except_bind_ok h
  simp only [findAttr, Except.ok.injEq] at e20
  subst e20
  obtain ⟨ide, e21, h⟩ := except_bind_ok h
  obtain ⟨x22, e22, h⟩ := except_bind_ok h
  obtain ⟨nNF, e23, h⟩ := except_bind_ok h
  obtain ⟨x24, e24, h⟩ := except_bind_ok h
  obtain ⟨dhEmi, e25, h⟩ := except_bind_ok h
  obtain ⟨total, e26, h⟩ := except_bind_ok h
  obtain ⟨x27, e27, h⟩ := except_bind_ok h
  obtain ⟨vNF, e28, h⟩ := except_bind_ok h
  obtain ⟨x29, e29, h⟩ := except_bind_ok h
  obtain ⟨vProd, e30, h⟩ := except_bind_ok h
  obtain ⟨x31, e31, h⟩ := except_bind_ok h
  obtain ⟨vFrete, e32, h⟩ := except_bind_ok h
  rw [except_pure_eq] at h
  cases h
  refine ⟨infN, destE, endE, rfl, hD, hE, ⟨nmE, hNm, rfl⟩, ?_, ?_, ?_⟩
  · simp only [documentoSem]
  · simp only [emailSem]
  · simp only [foneSem]

/-- C9: for every parse outcome, the extraction function is total and every
failure is converted by the single handler into the `None` result together
with exactly one reported error message; success reports no message. -/
theorem c9_total_single_message (parsed : Except String Elem) :
    (∃ recs, extrairApp parsed = (some recs, [])) ∨
    (∃ m, extrairApp parsed = (none, [m])) := by
  unfold extrairApp
  cases extrair_dados_nfe parsed with
  | ok recs => exact Or.inl ⟨recs, rfl⟩
  | error e => exact Or.inr ⟨errorMessage e, rfl⟩

/-- C4: a parse failure yields a `malformed` error carrying the parser
message; once parsing succeeded, the result is `unrecognizedStructure`
exactly when the document root has no `NFe` child, and any failure after the
invoice root was located is a `malformed` error carrying a message; an error
outcome never comes with a record sequence. -/
theorem c4_error_classification :
    (∀ msg, extrair_dados_nfe (Except.error msg) =
      Except.error (ExtractionError.malformed msg)) ∧
    (∀ root, extrair_dados_nfe (Except.ok root) =
        Except.error ExtractionError.unrecognizedStructure ↔
      root.find (qn "NFe") = none) ∧
    (∀ root e, (root.find (qn "NFe")).isSome →
      extrair_dados_nfe (Except.ok root) = Except.error e →
      ∃ m, e = ExtractionError.malformed m) ∧
    (∀ p e, extrair_dados_nfe p = Except.error e →
      ∀ recs, extrair_dados_nfe p ≠ Except.ok recs) := by
  refine ⟨fun msg => rfl, fun root => ?_, fun root e hsome herr => ?_,
    fun p e he recs => ?_⟩
  · rcases hn : root.find (qn "NFe") with _ | nfeN
    · simp [extrair_dados_nfe, hn]
    · simp only [extrair_dados_nfe, hn]
      constructor
      · intro hcon
        cases hbe : extrairBody nfeN with
        | error m => rw [hbe] at hcon; simp [Except.mapError] at hcon
        | ok v => rw [hbe] at hcon; simp [Except.mapError] at hcon
      · intro hcon; exact absurd hcon (by simp)
  · rcases hn : root.find (qn "NFe") with _ | nfeN
    · rw [hn] at hsome; simp at hsome
    · simp only [extrair_dados_nfe, hn] at herr
      cases hbe : extrairBody nfeN with
      | error m =>
          rw [hbe] at herr
          simp only [Except.mapError, Except.error.injEq] at herr
          exact ⟨m, herr.symm⟩
      | ok v => rw [hbe] at herr; simp [Except.mapError] at herr
  · rw [he]; simp

/-- Keys of the dict built for any record are the 14 fixed labels. -/
theorem rowPairs_keys (r : Record) : (rowPairs r).map Prod.fst = labels14 := rfl

theorem foldl_labels (l : List Record) :
    (l.map (fun _ : Record => labels14)).foldl
      (fun acc ks => ks.foldl insertKey acc) labels14 = labels14 := by
  induction l with
  | nil => rfl
  | cons a t ih =>
      simp only [List.map_cons, List.foldl_cons]
      rw [show labels14.foldl insertKey labels14 = labels14 from by decide]
      exact ih

/-- The DataFrame built from a non-empty record list has exactly the 14
fixed column labels, in order. -/
theorem dfColumns_eq (r : Record) (rs : List Record) :
    dfColumns (r :: rs) = labels14 := by
  have hk : (fun x : Record => (rowPairs x).map Prod.fst) =
      fun _ : Record => labels14 := funext fun x => rowPairs_keys x
  simp only [dfColumns, hk, List.map_cons, List.foldl_cons]
  rw [show labels14.foldl insertKey ([] : List String) = labels14 from by decide]
  exact foldl_labels rs

/-- Reading one data row back through the column labels yields exactly the
dict values in dict order. -/
theorem lookup_row (r : Record) :
    labels14.map (lookupCell (rowPairs r)) = (rowPairs r).map Prod.snd := rfl

/-- C8 counterexample: for the empty record sequence the DataFrame has no
columns, so the worksheet written by `to_excel` has no header row at all —
the fixed 14-label header row is absent. -/
theorem c8_counterexample :
    (to_excel []).header ≠ labels14 ∧ (to_excel []).header = [] ∧
    (to_excel []).sheetName = "Dados NFe" := by
  refine ⟨by decide, rfl, rfl⟩

/-- C8 (amended to non-empty record sequences): `to_excel` produces the
single worksheet "Dados NFe", a header row holding exactly the 14 field
display names in the fixed order, and one data row per record in sequence
order, each row being exactly the record's 14 field cells (no index
column). -/
theorem c8_to_excel_layout (recs : List Record) (hne : recs ≠ []) :
    (to_excel recs).sheetName = "Dados NFe" ∧
    (to_excel recs).header = labels14 ∧
    (to_excel recs).data = recs.map (fun r => (rowPairs r).map Prod.snd) ∧
    ∀ row ∈ (to_excel recs).data, row.length = 14 := by
  obtain ⟨r, rs, rfl⟩ : ∃ a l, recs = a :: l := by
    cases recs with
    | nil => exact absurd rfl hne
    | cons a l => exact ⟨a, l, rfl⟩
  have hcols : dfColumns (r :: rs) = labels14 := dfColumns_eq r rs
  refine ⟨rfl, ?_, ?_, ?_⟩
  · simp only [to_excel]
    exact hcols
  · simp only [to_excel, hcols]
    exact List.map_congr_left fun x _ => lookup_row x
  · intro row hrow
    simp only [to_excel, hcols, List.mem_map] at hrow
    obtain ⟨x, -, hx⟩ := hrow
    rw [← hx, List.length_map]
    rfl

/-- The conclusion of claim C2 for a given accepted input and its output:
the record count equals the `det` count, the j-th record's line-item fields
are extracted from the j-th `det` element, and all records agree on the ten
invoice-level and buyer-level fields. -/
def c2Concl (root : Elem) (recs : List Record) : Prop :=
  (∃ nfeN infN, root.find (qn "NFe") = some nfeN ∧
    nfeN.find (qn "infNFe") = some infN ∧
    recs.length = (infN.findall (qn "det")).length ∧
    ∀ j (hj : j < (infN.findall (qn "det")).length) (hj2 : j < recs.length),
      lineOf ((infN.findall (qn "det")).get ⟨j, hj⟩) =
        Except.ok (lineProj (recs.get ⟨j, hj2⟩))) ∧
  ∀ r1 ∈ recs, ∀ r2 ∈ recs, sharedProj r1 = sharedProj r2

/-- C2: whenever extraction succeeds, it returns one record per `det`
element of the invoice-info element, in document order (the j-th record's
line-item fields come from the j-th `det`), and all records share the same
invoice-level and buyer-level fields, differing only in the four line-item
fields. -/
theorem c2_records_per_det_in_order (root : Elem) (recs : List Record)
    (h : extrair_dados_nfe (Except.ok root) = Except.ok recs) :
    c2Concl root recs := by
  rcases hn : root.find (qn "NFe") with _ | nfeN
  · simp only [extrair_dados_nfe, hn] at h
    exact absurd h (by simp)
  simp only [extrair_dados_nfe, hn] at h
  have hbody : extrairBody nfeN = Except.ok recs := mapError_ok h
  simp only [extrairBody] at hbody
  obtain ⟨s, hs, hbody⟩ := except_bind_ok hbody
  obtain ⟨itens, hit, hbuild⟩ := except_bind_ok hbody
  simp only [itensOf] at hit
  rcases hI : nfeN.find (qn "infNFe") with _ | infN
  · rw [hI] at hit; exact absurd hit (by simp [findallAttr])
  rw [hI] at hit
  simp only [findallAttr, Except.ok.injEq] at hit
  subst hit
  constructor
  · exact ⟨nfeN, infN, hn, hI, buildItens_length hbuild,
      fun j hj hj2 => (buildItem_ok (buildItens_get hbuild j hj hj2)).1⟩
  · intro r1 h1 r2 h2
    obtain ⟨d1, -, hb1⟩ := buildItens_mem hbuild r1 h1
    obtain ⟨d2, -, hb2⟩ := buildItens_mem hbuild r2 h2
    obtain ⟨-, pv1, fv1, nv1, ep1, ef1, en1, hsh1⟩ := buildItem_ok hb1
    obtain ⟨-, pv2, fv2, nv2, ep2, ef2, en2, hsh2⟩ := buildItem_ok hb2
    rw [ep1] at ep2
    rw [ef1] at ef2
    rw [en1] at en2
    injection ep2 with hpv
    injection ef2 with hfv
    injection en2 with hnv
    rw [hsh1, hsh2, hpv, hfv, hnv]

/-- The conclusion of claim C3: the buyer-document field of every returned
record follows the CPF-else-CNPJ-else-sentinel rule read off the located
`dest` element. -/
def c3Concl (root : Elem) (recs : List Record) : Prop :=
  ∃ nfeN infN destE, root.find (qn "NFe") = some nfeN ∧
    nfeN.find (qn "infNFe") = some infN ∧
    infN.find (qn "dest") = some destE ∧
    ∀ r ∈ recs, r.documento = documentoSem destE

/-- C3: for every accepted input, every returned record's buyer-document
field equals the CPF element text when present, else the CNPJ element text
when present, else the literal sentinel "Não informado"; absence of both
never aborts extraction (acceptance does not depend on them). -/
theorem c3_documento_fallback (root : Elem) (recs : List Record)
    (h : extrair_dados_nfe (Except.ok root) = Except.ok recs) :
    c3Concl root recs := by
  rcases hn : root.find (qn "NFe") with _ | nfeN
  · simp only [extrair_dados_nfe, hn] at h
    exact absurd h (by simp)
  simp only [extrair_dados_nfe, hn] at h
  have hbody : extrairBody nfeN = Except.ok recs := mapError_ok h
  simp only [extrairBody] at hbody
  obtain ⟨s, hs, hbody⟩ := except_bind_ok hbody
  obtain ⟨itens, hit, hbuild⟩ := except_bind_ok hbody
  obtain ⟨infN, destE, endE, hI, hD, hE, ⟨nmE, hNm, hnome⟩, hdoc, hemail, hfone⟩ :=
    sharedCtxOf_ok hs
  refine ⟨nfeN, infN, destE, hn, hI, hD, ?_⟩
  intro r hr
  obtain ⟨d, -, hbd⟩ := buildItens_mem hbuild r hr
  obtain ⟨-, pv, fv, nv, -, -, -, hsh⟩ := buildItem_ok hbd
  simp only [sharedProj, Prod.mk.injEq] at hsh
  rw [hsh.2.2.2.1, hdoc]

/-- The conclusion of claim C7: email read from `dest`, phone read from
`enderDest`, each with the sentinel fallback. -/
def c7Concl (root : Elem) (recs : List Record) : Prop :=
  ∃ nfeN infN destE endE, root.find (qn "NFe") = some nfeN ∧
    nfeN.find (qn "infNFe") = some infN ∧
    infN.find (qn "dest") = some destE ∧
    destE.find (qn "enderDest") = some endE ∧
    ∀ r ∈ recs, r.email = emailSem destE ∧ r.telefone = foneSem endE

/-- C7: for every accepted input, every returned record's email field is the
text of the `email` element under `dest` when present (sentinel otherwise),
and its phone field is the text of the `fone` element under the address
sub-tree `enderDest` when present (sentinel otherwise); absence of either
never aborts extraction. -/
theorem c7_email_fone_fallback (root : Elem) (recs : List Record)
    (h : extrair_dados_nfe (Except.ok root) = Except.ok recs) :
    c7Concl root recs := by
  rcases hn : root.find (qn "NFe") with _ | nfeN
  · simp only [extrair_dados_nfe, hn] at h
    exact absurd h (by simp)
  simp only [extrair_dados_nfe, hn] at h
  have hbody : extrairBody nfeN = Except.ok recs := mapError_ok h
  simp only [extrairBody] at hbody
  obtain ⟨s, hs, hbody⟩ := except_bind_ok hbody
  obtain ⟨itens, hit, hbuild⟩ := except_bind_ok hbody
  obtain ⟨infN, destE, endE, hI, hD, hE, ⟨nmE, hNm, hnome⟩, hdoc, hemail, hfone⟩ :=
    sharedCtxOf_ok hs
  refine ⟨nfeN, infN, destE, endE, hn, hI, hD, hE, ?_⟩
  intro r hr
  obtain ⟨d, -, hbd⟩ := buildItens_mem hbuild r hr
  obtain ⟨-, pv, fv, nv, -, -, -, hsh⟩ := buildItem_ok hbd
  simp only [sharedProj, Prod.mk.injEq] at hsh
  exact ⟨hsh.2.2.2.2.2.2.1.trans hemail, hsh.2.2.2.2.2.1.trans hfone⟩

/-! Concrete input documents used to exhibit behaviour and to witness the
hypotheses of the general theorems. -/

def txtEl (t : String) (v : Option String) : Elem := Elem.node (qn t) v []

def enderElem (t1 t2 t3 t4 t5 t6 : Option String) (extra : List Elem) : Elem :=
  Elem.node (qn "enderDest") none
    ([txtEl "xLgr" t1, txtEl "nro" t2, txtEl "xBairro" t3,
      txtEl "xMun" t4, txtEl "UF" t5, txtEl "CEP" t6] ++ extra)

def destElem (nome : Option String) (pre : List Elem) (ender : Elem) (extra : List Elem) : Elem :=
  Elem.node (qn "dest") none ([txtEl "xNome" nome] ++ pre ++ [ender] ++ extra)

def ideElem (n d : Option String) : Elem :=
  Elem.node (qn "ide") none [txtEl "nNF" n, txtEl "dhEmi" d]

def totalElem (vnf vprod vfrete : Option String) : Elem :=
  Elem.node (qn "total") none
    [Elem.node (qn "ICMSTot") none
      [txtEl "vNF" vnf, txtEl "vProd" vprod, txtEl "vFrete" vfrete]]

def prodElem (c x qv uv : Option String) : Elem :=
  Elem.node (qn "prod") none
    [txtEl "cProd" c, txtEl "xProd" x, txtEl "qCom" qv, txtEl "vUnCom" uv]

def detElem (p : Elem) : Elem := Elem.node (qn "det") none [p]

def infNFeElem (d i t : Elem) (dets : List Elem) : Elem :=
  Elem.node (qn "infNFe") none ([d, i, t] ++ dets)

def nfeElem (inf : Elem) : Elem := Elem.node (qn "NFe") none [inf]

def procElem (nfe : Elem) : Elem := Elem.node (qn "nfeProc") none [nfe]

/-- A complete, valid buyer address sub-tree (with a phone element). -/
def ender0 : Elem :=
  enderElem (some "Rua A") (some "10") (some "Centro") (some "Cidade")
    (some "SP") (some "12345678") [txtEl "fone" (some "999888777")]

/-- A complete, valid buyer sub-tree with a CPF and an email element. -/
def dest0 : Elem :=
  destElem (some "Fulano") [txtEl "CPF" (some "11122233344")] ender0
    [txtEl "email" (some "fulano@exemplo.com")]

/-- A complete, valid invoice-info element with no `det` line items. -/
def inf0 : Elem :=
  infNFeElem dest0 (ideElem (some "123") (some "2024-05-01T10:00:00-03:00"))
    (totalElem (some "107") (some "100") (some "7")) []

/-- A well-formed invoice document whose document root IS the namespaced
`<NFe>` element itself, with fully valid content. -/
def bareNFe : Elem := nfeElem inf0

/-- The same invoice wrapped in an enclosing `<nfeProc>` root. -/
def doc0 : Elem := procElem bareNFe

/-- C1 (code bug exhibit): on a well-formed document whose root is the bare
namespaced `<NFe>` element itself — content fully valid, as shown by the
same element succeeding when wrapped one level down — the extractor takes
the `UnrecognizedStructure` path, because `root.find` only searches direct
children of the document root and never matches the root itself, contrary
to the tolerated-structures comment at source line 23. -/
theorem c1_bare_nfe_root_rejected :
    bareNFe.tag = qn "NFe" ∧
    extrair_dados_nfe (Except.ok bareNFe) =
      Except.error ExtractionError.unrecognizedStructure ∧
    extrair_dados_nfe (Except.ok doc0) = Except.ok [] :=
  ⟨rfl, rfl, rfl⟩

/-- C6: an accepted invoice (all invoice-level lookups succeed) with zero
`det` line-item elements yields the empty record sequence as a success
value, not an error. -/
theorem c6_zero_det_empty_success (root : Elem)
    {nfeN infN destE endE nmE a1 a2 a3 a4 a5 a6 ideE nE dE totE v1 v2 v3 : Elem}
    (hn : root.find (qn "NFe") = some nfeN)
    (hi : nfeN.find (qn "infNFe") = some infN)
    (hd : infN.find (qn "dest") = some destE)
    (he : destE.find (qn "enderDest") = some endE)
    (hnm : destE.find (qn "xNome") = some nmE)
    (ha1 : endE.find (qn "xLgr") = some a1)
    (ha2 : endE.find (qn "nro") = some a2)
    (ha3 : endE.find (qn "xBairro") = some a3)
    (ha4 : endE.find (qn "xMun") = some a4)
    (ha5 : endE.find (qn "UF") = some a5)
    (ha6 : endE.find (qn "CEP") = some a6)
    (hid : infN.find (qn "ide") = some ideE)
    (hnnf : ideE.find (qn "nNF") = some nE)
    (hdh : ideE.find (qn "dhEmi") = some dE)
    (htot : infN.find2 (qn "total") (qn "ICMSTot") = some totE)
    (hv1 : totE.find (qn "vNF") = some v1)
    (hv2 : totE.find (qn "vProd") = some v2)
    (hv3 : totE.find (qn "vFrete") = some v3)
    (hdets : infN.findall (qn "det") = []) :
    extrair_dados_nfe (Except.ok root) = Except.ok [] := by
  simp only [extrair_dados_nfe, hn, extrairBody, sharedCtxOf, itensOf, buildItens,
    findAttr, find2Attr, findallAttr, textAttr,
    hi, hd, he, hnm, ha1, ha2, ha3, ha4, ha5, ha6, hid, hnnf, hdh, htot,
    hv1, hv2, hv3, hdets, except_ok_bind, except_pure_eq, Except.mapError]

/-- C10: when a required text-valued element (consumer name, each of the six
address components) is present but holds no text, extraction does not fail:
it succeeds, the name field carries the element's (null) text verbatim, and
the composed address embeds `pyStr` of each component text — which is the
literal "None" for an empty component. -/
theorem c10_empty_text_fields (root : Elem)
    {nfeN infN destE endE nmE a1 a2 a3 a4 a5 a6 ideE nE dE totE v1 v2 v3
      det0 prodE cE xE qE uE : Elem}
    {tn t1 t2 t3 t4 t5 t6 : Option String}
    {tnf tp tf qs us : String} {nv pv fv qv uv : Rat}
    (hn : root.find (qn "NFe") = some nfeN)
    (hi : nfeN.find (qn "infNFe") = some infN)
    (hd : infN.find (qn "dest") = some destE)
    (he : destE.find (qn "enderDest") = some endE)
    (hnm : destE.find (qn "xNome") = some nmE)
    (hnmt : nmE.text = tn)
    (ha1 : endE.find (qn "xLgr") = some a1)
    (ha2 : endE.find (qn "nro") = some a2)
    (ha3 : endE.find (qn "xBairro") = some a3)
    (ha4 : endE.find (qn "xMun") = some a4)
    (ha5 : endE.find (qn "UF") = some a5)
    (ha6 : endE.find (qn "CEP") = some a6)
    (ha1t : a1.text = t1) (ha2t : a2.text = t2) (ha3t : a3.text = t3)
    (ha4t : a4.text = t4) (ha5t : a5.text = t5) (ha6t : a6.text = t6)
    (hid : infN.find (qn "ide") = some ideE)
    (hnnf : ideE.find (qn "nNF") = some nE)
    (hdh : ideE.find (qn "dhEmi") = some dE)
    (htot : infN.find2 (qn "total") (qn "ICMSTot") = some totE)
    (hv1 : totE.find (qn "vNF") = some v1)
    (hv2 : totE.find (qn "vProd") = some v2)
    (hv3 : totE.find (qn "vFrete") = some v3)
    (hv1t : v1.text = some tnf) (hv1v : pyFloat? tnf = some nv)
    (hv2t : v2.text = some tp) (hv2v : pyFloat? tp = some pv)
    (hv3t : v3.text = some tf) (hv3v : pyFloat? tf = some fv)
    (hdets : infN.findall (qn "det") = [det0])
    (hprod : det0.find (qn "prod") = some prodE)
    (hc : prodE.find (qn "cProd") = some cE)
    (hx : prodE.find (qn "xProd") = some xE)
    (hq : prodE.find (qn "qCom") = some qE)
    (hqt : qE.text = some qs) (hqv : pyFloat? qs = some qv)
    (hu : prodE.find (qn "vUnCom") = some uE)
    (hut : uE.text = some us) (huv : pyFloat? us = some uv) :
    ∃ r, extrair_dados_nfe (Except.ok root) = Except.ok [r] ∧
      r.nome = tn ∧
      r.endereco = pyStr t1 ++ ", " ++ pyStr t2 ++ " - " ++ pyStr t3 ++ ", " ++
        pyStr t4 ++ "/" ++ pyStr t5 ++ " - CEP: " ++ pyStr t6 ∧
      pyStr none = "None" := by
  simp only [extrair_dados_nfe, hn, extrairBody, sharedCtxOf, itensOf, buildItens,
    buildItem, findAttr, find2Attr, findallAttr, textAttr, pyFloat,
    hi, hd, he, hnm, hnmt, ha1, ha2, ha3, ha4, ha5, ha6,
    ha1t, ha2t, ha3t, ha4t, ha5t, ha6t, hid, hnnf, hdh, htot,
    hv1, hv2, hv3, hv1t, hv2t, hv3t, hv1v, hv2v, hv3v,
    hdets, hprod, hc, hx, hq, hqt, hqv, hu, hut, huv,
    except_ok_bind, except_pure_eq, Except.mapError]
  exact ⟨_, rfl, rfl, rfl, rfl⟩

/-- C5 (amended): the numeric parsing of the three totals happens inside the
per-item loop, so when the invoice has at least one `det` element (whose own
quantity and unit value parse), a non-numeric text in any of the three
totals makes extraction fail with a `malformed` error carrying the float
conversion message for the first unparseable total in evaluation order
(vProd, vFrete, vNF); the message reports the offending text, not the field
name. -/
theorem c5_nonnumeric_total_fails (root : Elem)
    {nfeN infN destE endE nmE a1 a2 a3 a4 a5 a6 ideE nE dE totE v1 v2 v3
      det0 prodE cE xE qE uE : Elem}
    {tnf tp tf qs us b : String} {qv uv : Rat} {dets : List Elem}
    (hn : root.find (qn "NFe") = some nfeN)
    (hi : nfeN.find (qn "infNFe") = some infN)
    (hd : infN.find (qn "dest") = some destE)
    (he : destE.find (qn "enderDest") = some endE)
    (hnm : destE.find (qn "xNome") = some nmE)
    (ha1 : endE.find (qn "xLgr") = some a1)
    (ha2 : endE.find (qn "nro") = some a2)
    (ha3 : endE.find (qn "xBairro") = some a3)
    (ha4 : endE.find (qn "xMun") = some a4)
    (ha5 : endE.find (qn "UF") = some a5)
    (ha6 : endE.find (qn "CEP") = some a6)
    (hid : infN.find (qn "ide") = some ideE)
    (hnnf : ideE.find (qn "nNF") = some nE)
    (hdh : ideE.find (qn "dhEmi") = some dE)
    (htot : infN.find2 (qn "total") (qn "ICMSTot") = some totE)
    (hv1 : totE.find (qn "vNF") = some v1)
    (hv2 : totE.find (qn "vProd") = some v2)
    (hv3 : totE.find (qn "vFrete") = some v3)
    (hv1t : v1.text = some tnf)
    (hv2t : v2.text = some tp)
    (hv3t : v3.text = some tf)
    (hdets : infN.findall (qn "det") = det0 :: dets)
    (hprod : det0.find (qn "prod") = some prodE)
    (hc : prodE.find (qn "cProd") = some cE)
    (hx : prodE.find (qn "xProd") = some xE)
    (hq : prodE.find (qn "qCom") = some qE)
    (hqt : qE.text = some qs) (hqv : pyFloat? qs = some qv)
    (hu : prodE.find (qn "vUnCom") = some uE)
    (hut : uE.text = some us) (huv : pyFloat? us = some uv)
    (hbad : firstNonFloat [tp, tf, tnf] = some b) :
    extrair_dados_nfe (Except.ok root) =
      Except.error (ExtractionError.malformed
        ("could not convert string to float: " ++ b)) := by
  rcases hp : pyFloat? tp with _ | pv
  · have hb : tp = b := by simp [firstNonFloat, hp] at hbad; exact hbad
    subst hb
    simp only [extrair_dados_nfe, hn, extrairBody, sharedCtxOf, itensOf, buildItens,
      buildItem, findAttr, find2Attr, findallAttr, textAttr, pyFloat,
      hi, hd, he, hnm, ha1, ha2, ha3, ha4, ha5, ha6, hid, hnnf, hdh, htot,
      hv1, hv2, hv3, hv1t, hv2t, hv3t, hdets, hprod, hc, hx, hq, hqt, hqv,
      hu, hut, huv, hp, except_ok_bind, except_error_bind, except_pure_eq,
      Except.mapError]
  · rcases hf : pyFloat? tf with _ | fv
    · have hb : tf = b := by simp [firstNonFloat, hp, hf] at hbad; exact hbad
      subst hb
      simp only [extrair_dados_nfe, hn, extrairBody, sharedCtxOf, itensOf, buildItens,
        buildItem, findAttr, find2Attr, findallAttr, textAttr, pyFloat,
        hi, hd, he, hnm, ha1, ha2, ha3, ha4, ha5, ha6, hid, hnnf, hdh, htot,
        hv1, hv2, hv3, hv1t, hv2t, hv3t, hdets, hprod, hc, hx, hq, hqt, hqv,
        hu, hut, huv, hp, hf, except_ok_bind, except_error_bind, except_pure_eq,
        Except.mapError]
    · rcases hn2 : pyFloat? tnf with _ | nv
      · have hb : tnf = b := by simp [firstNonFloat, hp, hf, hn2] at hbad; exact hbad
        subst hb
        simp only [extrair_dados_nfe, hn, extrairBody, sharedCtxOf, itensOf, buildItens,
          buildItem, findAttr, find2Attr, findallAttr, textAttr, pyFloat,
          hi, hd, he, hnm, ha1, ha2, ha3, ha4, ha5, ha6, hid, hnnf, hdh, htot,
          hv1, hv2, hv3, hv1t, hv2t, hv3t, hdets, hprod, hc, hx, hq, hqt, hqv,
          hu, hut, huv, hp, hf, hn2, except_ok_bind, except_error_bind,
          except_pure_eq, Except.mapError]
      · exact absurd hbad (by simp [firstNonFloat, hp, hf, hn2])

/-- The parsed rational value of a numeric text (0 when not numeric); used
only to write down expected record values. -/
def ratOfText (s : String) : Rat := (pyFloat? s).getD 0

def prodA : Elem := prodElem (some "P1") (some "Produto Um") (some "2") (some "5")

def prodB : Elem := prodElem (some "P2") (some "Produto Dois") (some "3") (some "4.50")

/-- A two-item invoice with full buyer data. -/
def inf2 : Elem :=
  infNFeElem dest0 (ideElem (some "123") (some "2024-05-01T10:00:00-03:00"))
    (totalElem (some "107") (some "100") (some "7")) [detElem prodA, detElem prodB]

def doc2 : Elem := procElem (nfeElem inf2)

def rec2a : Record :=
  { nNF := some "123", dhEmi := some "2024-05-01T10:00:00-03:00",
    nome := some "Fulano", documento := some "11122233344",
    endereco := "Rua A, 10 - Centro, Cidade/SP - CEP: 12345678",
    telefone := some "999888777", email := some "fulano@exemplo.com",
    cProd := some "P1", xProd := some "Produto Um",
    qCom := ratOfText "2", vUnCom := ratOfText "5",
    vProdTot := ratOfText "100", vFreteTot := ratOfText "7",
    vNFTot := ratOfText "107" }

def rec2b : Record :=
  { nNF := some "123", dhEmi := some "2024-05-01T10:00:00-03:00",
    nome := some "Fulano", documento := some "11122233344",
    endereco := "Rua A, 10 - Centro, Cidade/SP - CEP: 12345678",
    telefone := some "999888777", email := some "fulano@exemplo.com",
    cProd := some "P2", xProd := some "Produto Dois",
    qCom := ratOfText "3", vUnCom := ratOfText "4.50",
    vProdTot := ratOfText "100", vFreteTot := ratOfText "7",
    vNFTot := ratOfText "107" }

/-- A buyer sub-tree with neither CPF nor CNPJ and no email element. -/
def dest3 : Elem := destElem (some "Sicrano") [] ender0 []

def inf3 : Elem :=
  infNFeElem dest3 (ideElem (some "55") (some "2024-06-01"))
    (totalElem (some "10") (some "10") (some "0")) [detElem prodA]

def doc3 : Elem := procElem (nfeElem inf3)

def rec3 : Record :=
  { nNF := some "55", dhEmi := some "2024-06-01",
    nome := some "Sicrano", documento := some "Não informado",
    endereco := "Rua A, 10 - Centro, Cidade/SP - CEP: 12345678",
    telefone := some "999888777", email := some "Não informado",
    cProd := some "P1", xProd := some "Produto Um",
    qCom := ratOfText "2", vUnCom := ratOfText "5",
    vProdTot := ratOfText "10", vFreteTot := ratOfText "0",
    vNFTot := ratOfText "10" }

/-- An address sub-tree with no `fone` element. -/
def ender7 : Elem :=
  enderElem (some "Rua B") (some "1") (some "Bairro") (some "Vila")
    (some "RJ") (some "20000000") []

/-- A buyer sub-tree with a CNPJ, no email element, address without phone. -/
def dest7 : Elem := destElem (some "Beltrano") [txtEl "CNPJ" (some "12345678000199")] ender7 []

def inf7 : Elem :=
  infNFeElem dest7 (ideElem (some "9") (some "2024-07-01"))
    (totalElem (some "5") (some "5") (some "0")) [detElem prodA]

def doc7 : Elem := procElem (nfeElem inf7)

def rec7 : Record :=
  { nNF := some "9", dhEmi := some "2024-07-01",
    nome := some "Beltrano", documento := some "12345678000199",
    endereco := "Rua B, 1 - Bairro, Vila/RJ - CEP: 20000000",
    telefone := some "Não informado", email := some "Não informado",
    cProd := some "P1", xProd := some "Produto Um",
    qCom := ratOfText "2", vUnCom := ratOfText "5",
    vProdTot := ratOfText "5", vFreteTot := ratOfText "0",
    vNFTot := ratOfText "5" }

/-- Totals sub-tree whose `vNF` text is not numeric. -/
def icms5 : Elem :=
  Elem.node (qn "ICMSTot") none
    [txtEl "vNF" (some "abc"), txtEl "vProd" (some "100"), txtEl "vFrete" (some "7")]

def tot5 : Elem := Elem.node (qn "total") none [icms5]

/-- An invoice with a non-numeric `vNF` total and zero `det` items. -/
def inf5 : Elem :=
  infNFeElem dest0 (ideElem (some "123") (some "2024-05-01T10:00:00-03:00")) tot5 []

def nfe5 : Elem := nfeElem inf5

def doc5 : Elem := procElem nfe5

/-- The same non-numeric-total invoice but with one `det` item. -/
def inf5b : Elem :=
  infNFeElem dest0 (ideElem (some "123") (some "2024-05-01T10:00:00-03:00")) tot5
    [detElem prodA]

def doc5b : Elem := procElem (nfeElem inf5b)

/-- C5 counterexample: an input whose invoice root is located and whose
`vNF` total has the non-numeric text "abc", yet extraction succeeds
(returning the empty sequence), because the `float()` conversions of the
totals run only inside the per-item loop and the invoice has zero `det`
items. -/
theorem c5_counterexample :
    extrair_dados_nfe (Except.ok doc5) = Except.ok [] ∧
    (∃ nfeN infN totE vE, doc5.find (qn "NFe") = some nfeN ∧
      nfeN.find (qn "infNFe") = some infN ∧
      infN.find2 (qn "total") (qn "ICMSTot") = some totE ∧
      totE.find (qn "vNF") = some vE ∧ vE.text = some "abc" ∧
      pyFloat? "abc" = none ∧ infN.findall (qn "det") = []) :=
  ⟨rfl, nfe5, inf5, icms5, txtEl "vNF" (some "abc"), rfl, rfl, rfl, rfl, rfl, rfl, rfl⟩

/-- A well-formed document with no `NFe` element anywhere. -/
def otherDoc : Elem := Elem.node (qn "other") none [txtEl "x" none]

/-- A document whose `NFe` child is present but empty (no `infNFe`). -/
def emptyNFeDoc : Elem := procElem (Elem.node (qn "NFe") none [])

theorem c2_witness :
    extrair_dados_nfe (Except.ok doc2) = Except.ok [rec2a, rec2b] ∧
    c2Concl doc2 [rec2a, rec2b] :=
  ⟨rfl, c2_records_per_det_in_order doc2 [rec2a, rec2b] rfl⟩

theorem c3_witness :
    extrair_dados_nfe (Except.ok doc3) = Except.ok [rec3] ∧
    c3Concl doc3 [rec3] ∧
    documentoSem dest3 = some "Não informado" ∧ rec3.documento = some "Não informado" :=
  ⟨rfl, c3_documento_fallback doc3 [rec3] rfl, rfl, rfl⟩

theorem c4_witness :
    (extrair_dados_nfe (Except.error "syntax error: line 1, column 0") =
      Except.error (ExtractionError.malformed "syntax error: line 1, column 0")) ∧
    (extrair_dados_nfe (Except.ok otherDoc) =
        Except.error ExtractionError.unrecognizedStructure ↔
      otherDoc.find (qn "NFe") = none) ∧
    (∃ m, ExtractionError.malformed "NoneType object has no attribute find" =
      ExtractionError.malformed m) ∧
    ((emptyNFeDoc.find (qn "NFe")).isSome ∧
      extrair_dados_nfe (Except.ok emptyNFeDoc) =
        Except.error (ExtractionError.malformed "NoneType object has no attribute find")) :=
  ⟨c4_error_classification.1 "syntax error: line 1, column 0",
   c4_error_classification.2.1 otherDoc,
   c4_error_classification.2.2.1 emptyNFeDoc
     (ExtractionError.malformed "NoneType object has no attribute find") rfl rfl,
   rfl, rfl⟩

theorem c5_witness :
    firstNonFloat ["100", "7", "abc"] = some "abc" ∧
    extrair_dados_nfe (Except.ok doc5b) =
      Except.error (ExtractionError.malformed
        ("could not convert string to float: " ++ "abc")) :=
  ⟨rfl, c5_nonnumeric_total_fails doc5b rfl rfl rfl rfl rfl rfl rfl rfl rfl rfl rfl
    rfl rfl rfl rfl rfl rfl rfl rfl rfl rfl rfl rfl rfl rfl rfl rfl rfl rfl rfl rfl rfl⟩

theorem c6_witness :
    inf0.findall (qn "det") = [] ∧
    extrair_dados_nfe (Except.ok doc0) = Except.ok [] :=
  ⟨rfl, c6_zero_det_empty_success doc0 rfl rfl rfl rfl rfl rfl rfl rfl rfl rfl rfl
    rfl rfl rfl rfl rfl rfl rfl rfl⟩

theorem c7_witness :
    extrair_dados_nfe (Except.ok doc7) = Except.ok [rec7] ∧
    c7Concl doc7 [rec7] ∧
    emailSem dest7 = some "Não informado" ∧ foneSem ender7 = some "Não informado" ∧
    rec7.email = some "Não informado" ∧ rec7.telefone = some "Não informado" :=
  ⟨rfl, c7_email_fone_fallback doc7 [rec7] rfl, rfl, rfl, rfl, rfl⟩

theorem c8_witness :
    ([rec2a] : List Record) ≠ [] ∧
    ((to_excel [rec2a]).sheetName = "Dados NFe" ∧
     (to_excel [rec2a]).header = labels14 ∧
     (to_excel [rec2a]).data = [rec2a].map (fun r => (rowPairs r).map Prod.snd) ∧
     ∀ row ∈ (to_excel [rec2a]).data, row.length = 14) :=
  ⟨by simp, c8_to_excel_layout [rec2a] (by simp)⟩

/-- Invoice with empty-text name and address elements, one valid item. -/
def ender10 : Elem := enderElem none none none none none none []

def dest10 : Elem := destElem none [] ender10 []

def inf10 : Elem :=
  infNFeElem dest10 (ideElem (some "77") (some "2024-01-02"))
    (totalElem (some "10") (some "9") (some "1")) [detElem prodA]

def doc10 : Elem := procElem (nfeElem inf10)

theorem c10_witness :
    (txtEl "xNome" none).text = none ∧
    (∃ r, extrair_dados_nfe (Except.ok doc10) = Except.ok [r] ∧
      r.nome = none ∧
      r.endereco = pyStr none ++ ", " ++ pyStr none ++ " - " ++ pyStr none ++ ", " ++
        pyStr none ++ "/" ++ pyStr none ++ " - CEP: " ++ pyStr none ∧
      pyStr none = "None") ∧
    pyStr none ++ ", " ++ pyStr none ++ " - " ++ pyStr none ++ ", " ++
      pyStr none ++ "/" ++ pyStr none ++ " - CEP: " ++ pyStr none =
      "None, None - None, None/None - CEP: None" :=
  ⟨rfl,
   c10_empty_text_fields doc10 rfl rfl rfl rfl rfl rfl rfl rfl rfl rfl rfl rfl
     rfl rfl rfl rfl rfl rfl rfl rfl rfl rfl rfl rfl rfl rfl rfl rfl rfl rfl rfl
     rfl rfl rfl rfl rfl rfl rfl rfl rfl rfl,
   rfl⟩
